import Mathlib

/-!
Shallow embedding of the my_lan_scanner device-discovery-to-topology pipeline:
the topology sanitizer (src/components/TopologyMap.tsx), the retry wrapper and
the subnet prober (src/services/geminiService.ts), together with theorems about
the specified properties.
-/

/-- Device kinds, from the `DeviceType` enum in src/types.ts. -/
inductive DeviceType
  | ROUTER
  | SWITCH
  | PC
  | SERVER
  | PRINTER
  | MOBILE
  | IOT
  | CLOUD
deriving DecidableEq, Repr, Inhabited

/-- Device status values, from the `status` union type in src/types.ts. -/
inductive DeviceStatus
  | online
  | offline
  | warning
deriving DecidableEq, Repr, Inhabited

/-- The `NetworkDevice` record of src/types.ts.  The TypeScript field `type`
is a Lean keyword and is embedded as `devType`; `parentId : string | null`
becomes `Option String` and the optional `latency` becomes `Option Nat`. -/
structure NetworkDevice where
  id : String
  ip : String
  mac : String
  name : String
  manufacturer : String
  devType : DeviceType
  parentId : Option String
  status : DeviceStatus
  latency : Option Nat
deriving DecidableEq, Repr, Inhabited

/-- One step of the data-cleaning map of TopologyMap.tsx (lines 56-59):
`parentId: d.parentId && validIds.has(d.parentId) ? d.parentId : null`.
A JavaScript `null` or empty-string `parentId` is falsy, so it is demoted to
`none`; otherwise the reference is kept exactly when it is a valid id. -/
def demoteOne (validIds : List String) (d : NetworkDevice) : NetworkDevice :=
  { d with parentId :=
      match d.parentId with
      | some p => if p ≠ "" ∧ p ∈ validIds then some p else none
      | none => none }

/-- The demotion pass of the sanitizer: build the set of valid ids
(`validIds`, line 53) and demote every dangling `parentId` (lines 56-59). -/
def demoteDangling (devices : List NetworkDevice) : List NetworkDevice :=
  devices.map (demoteOne (devices.map (fun d => d.id)))

/-- Candidate roots after demotion: `cleanDevices.filter(d => d.parentId === null)`
(TopologyMap.tsx line 62). -/
def candidateRoots (devices : List NetworkDevice) : List NetworkDevice :=
  (demoteDangling devices).filter (fun d => d.parentId = none)

/-- The primary-root election of TopologyMap.tsx line 64:
`roots.find(r => r.type === DeviceType.ROUTER) || roots[0]`. -/
def primaryRoot (devices : List NetworkDevice) : NetworkDevice :=
  match (candidateRoots devices).find? (fun r => r.devType = DeviceType.ROUTER) with
  | some r => r
  | none => (candidateRoots devices).headD default

/-- One step of the multi-root repair map of TopologyMap.tsx (lines 65-70):
a candidate root whose id differs from the main root id is reparented to the
main root. -/
def reparentOne (mainRootId : String) (d : NetworkDevice) : NetworkDevice :=
  if d.parentId = none ∧ ¬ d.id = mainRootId then
    { d with parentId := some mainRootId }
  else d

/-- The topology sanitizer of TopologyMap.tsx lines 53-71: demote dangling
parent references, and if more than one candidate root remains, reparent every
candidate root other than the elected main root to the main root's id. -/
def sanitizeTopology (devices : List NetworkDevice) : List NetworkDevice :=
  if 1 < (candidateRoots devices).length then
    (demoteDangling devices).map (reparentOne (primaryRoot devices).id)
  else demoteDangling devices

example :
    sanitizeTopology
      [{ id := "a", ip := "1", mac := "m", name := "n", manufacturer := "x",
         devType := DeviceType.PC, parentId := some "zz", status := DeviceStatus.online,
         latency := none }] =
      [{ id := "a", ip := "1", mac := "m", name := "n", manufacturer := "x",
         devType := DeviceType.PC, parentId := none, status := DeviceStatus.online,
         latency := none }] := by decide

/-! ### Basic lemmas about the sanitizer components -/

theorem demoteOne_id (I : List String) (d : NetworkDevice) :
    (demoteOne I d).id = d.id := rfl

theorem reparentOne_id (m : String) (d : NetworkDevice) :
    (reparentOne m d).id = d.id := by
  unfold reparentOne; split <;> rfl

theorem demoteDangling_map_id (devices : List NetworkDevice) :
    (demoteDangling devices).map (fun d => d.id) = devices.map (fun d => d.id) := by
  simp [demoteDangling, List.map_map, Function.comp_def, demoteOne_id]

theorem demoteOne_idem (I : List String) (d : NetworkDevice) :
    demoteOne I (demoteOne I d) = demoteOne I d := by
  unfold demoteOne
  cases hd : d.parentId with
  | none => simp
  | some p =>
    by_cases hc : p = ""
    · simp [hc]
    · by_cases hm : p ∈ I <;> simp [hc, hm]

theorem demoteOne_parent_valid (I : List String) (d : NetworkDevice) (p : String)
    (h : (demoteOne I d).parentId = some p) : p ≠ "" ∧ p ∈ I := by
  unfold demoteOne at h
  cases hd : d.parentId with
  | none => simp [hd] at h
  | some q =>
    simp only [hd] at h
    split at h <;> simp_all

theorem demoteOne_of_valid (I : List String) (d : NetworkDevice) (p : String)
    (hd : d.parentId = some p) (hp : p ≠ "" ∧ p ∈ I) : demoteOne I d = d := by
  unfold demoteOne
  simp only [hd]
  rw [if_pos ⟨hp.1, hp.2⟩, ← hd]

theorem demoteOne_of_none (I : List String) (d : NetworkDevice)
    (hd : d.parentId = none) : demoteOne I d = d := by
  unfold demoteOne
  simp only [hd]
  rw [← hd]

theorem reparentOne_of_some (m : String) (d : NetworkDevice) (p : String)
    (hd : d.parentId = some p) : reparentOne m d = d := by
  unfold reparentOne
  rw [if_neg]
  simp [hd]

theorem reparentOne_of_id_eq (m : String) (d : NetworkDevice)
    (hd : d.id = m) : reparentOne m d = d := by
  unfold reparentOne
  rw [if_neg]
  simp [hd]

theorem reparentOne_of_root_ne (m : String) (d : NetworkDevice)
    (hp : d.parentId = none) (hne : ¬ d.id = m) :
    reparentOne m d = { d with parentId := some m } := by
  unfold reparentOne
  rw [if_pos ⟨hp, hne⟩]

theorem demoteOne_reparentOne (I : List String) (m : String)
    (hmne : m ≠ "") (hm : m ∈ I) (d : NetworkDevice) :
    demoteOne I (reparentOne m (demoteOne I d)) = reparentOne m (demoteOne I d) := by
  cases hp : (demoteOne I d).parentId with
  | none =>
    by_cases hid : (demoteOne I d).id = m
    · rw [reparentOne_of_id_eq m _ hid, demoteOne_idem]
    · rw [reparentOne_of_root_ne m _ hp hid]
      exact demoteOne_of_valid I _ m rfl ⟨hmne, hm⟩
  | some p =>
    rw [reparentOne_of_some m _ p hp, demoteOne_idem]

theorem demoteOne_update_empty (I : List String) (d : NetworkDevice) :
    demoteOne I { d with parentId := some "" } = { d with parentId := none } := by
  unfold demoteOne
  simp

theorem demoteOne_reparentOne_empty (I : List String) (d : NetworkDevice) :
    demoteOne I (reparentOne "" (demoteOne I d)) = demoteOne I d := by
  cases hp : (demoteOne I d).parentId with
  | none =>
    by_cases hid : (demoteOne I d).id = ""
    · rw [reparentOne_of_id_eq "" _ hid, demoteOne_idem]
    · rw [reparentOne_of_root_ne "" _ hp hid, demoteOne_update_empty, ← hp]
  | some p =>
    rw [reparentOne_of_some "" _ p hp, demoteOne_idem]

theorem demoteDangling_idem (devices : List NetworkDevice) :
    demoteDangling (demoteDangling devices) = demoteDangling devices := by
  have h1 : demoteDangling (demoteDangling devices)
      = (demoteDangling devices).map (demoteOne (devices.map (fun d => d.id))) := by
    rw [← demoteDangling_map_id devices]
    rfl
  rw [h1, demoteDangling, List.map_map]
  exact List.map_congr_left (fun d _ => demoteOne_idem _ d)

theorem demoteDangling_length (devices : List NetworkDevice) :
    (demoteDangling devices).length = devices.length := by
  simp [demoteDangling]

theorem demoteDangling_get (devices : List NetworkDevice) (i : Nat)
    (hi : i < devices.length) (hc : i < (demoteDangling devices).length) :
    (demoteDangling devices).get ⟨i, hc⟩ =
      demoteOne (devices.map (fun d => d.id)) (devices.get ⟨i, hi⟩) := by
  simp [demoteDangling]

theorem demoteDangling_parent_valid (devices : List NetworkDevice)
    (d : NetworkDevice) (hd : d ∈ demoteDangling devices) (p : String)
    (hp : d.parentId = some p) : p ≠ "" ∧ p ∈ devices.map (fun d => d.id) := by
  obtain ⟨x, _, rfl⟩ := List.mem_map.mp hd
  exact demoteOne_parent_valid _ x p hp

theorem sanitizeTopology_of_le (devices : List NetworkDevice)
    (h : ¬ 1 < (candidateRoots devices).length) :
    sanitizeTopology devices = demoteDangling devices := by
  unfold sanitizeTopology
  rw [if_neg h]

theorem sanitizeTopology_of_lt (devices : List NetworkDevice)
    (h : 1 < (candidateRoots devices).length) :
    sanitizeTopology devices =
      (demoteDangling devices).map (reparentOne (primaryRoot devices).id) := by
  unfold sanitizeTopology
  rw [if_pos h]

theorem sanitizeTopology_length (devices : List NetworkDevice) :
    (sanitizeTopology devices).length = devices.length := by
  unfold sanitizeTopology
  split <;> simp [demoteDangling_length]

theorem candidateRoots_ne_nil (devices : List NetworkDevice)
    (h : 1 < (candidateRoots devices).length) : candidateRoots devices ≠ [] := by
  intro hnil
  rw [hnil] at h
  simp at h

theorem primaryRoot_mem (devices : List NetworkDevice)
    (h : candidateRoots devices ≠ []) :
    primaryRoot devices ∈ candidateRoots devices := by
  unfold primaryRoot
  cases hf : (candidateRoots devices).find? (fun r => r.devType = DeviceType.ROUTER) with
  | some r => exact List.mem_of_find?_eq_some hf
  | none =>
    cases hc : candidateRoots devices with
    | nil => exact absurd hc h
    | cons x xs => simp [hc]

theorem mem_candidateRoots (devices : List NetworkDevice) (d : NetworkDevice)
    (hd : d ∈ candidateRoots devices) :
    d ∈ demoteDangling devices ∧ d.parentId = none := by
  have := List.mem_filter.mp hd
  simpa using this

/-- Identity fields of a device: everything except `parentId`. -/
def sameIdentity (a b : NetworkDevice) : Prop :=
  a.id = b.id ∧ a.ip = b.ip ∧ a.mac = b.mac ∧ a.name = b.name ∧
  a.manufacturer = b.manufacturer ∧ a.devType = b.devType ∧
  a.status = b.status ∧ a.latency = b.latency

instance (a b : NetworkDevice) : Decidable (sameIdentity a b) := by
  unfold sameIdentity
  infer_instance

theorem demoteOne_sameIdentity (I : List String) (d : NetworkDevice) :
    sameIdentity (demoteOne I d) d :=
  ⟨rfl, rfl, rfl, rfl, rfl, rfl, rfl, rfl⟩

theorem reparentOne_sameIdentity (m : String) (d : NetworkDevice) :
    sameIdentity (reparentOne m d) d := by
  unfold reparentOne
  split
  · exact ⟨rfl, rfl, rfl, rfl, rfl, rfl, rfl, rfl⟩
  · exact ⟨rfl, rfl, rfl, rfl, rfl, rfl, rfl, rfl⟩

theorem sameIdentity_trans {a b c : NetworkDevice}
    (h1 : sameIdentity a b) (h2 : sameIdentity b c) : sameIdentity a c := by
  unfold sameIdentity at h1 h2 ⊢
  obtain ⟨e1, e2, e3, e4, e5, e6, e7, e8⟩ := h1
  obtain ⟨f1, f2, f3, f4, f5, f6, f7, f8⟩ := h2
  exact ⟨e1.trans f1, e2.trans f2, e3.trans f3, e4.trans f4, e5.trans f5,
         e6.trans f6, e7.trans f7, e8.trans f8⟩

theorem sanitizeTopology_get_sameIdentity (devices : List NetworkDevice) (i : Nat)
    (hi : i < devices.length) (ho : i < (sanitizeTopology devices).length) :
    sameIdentity ((sanitizeTopology devices).get ⟨i, ho⟩) (devices.get ⟨i, hi⟩) := by
  have hc : i < (demoteDangling devices).length := by
    rw [demoteDangling_length]; exact hi
  by_cases h : 1 < (candidateRoots devices).length
  · have he := sanitizeTopology_of_lt devices h
    have : (sanitizeTopology devices).get ⟨i, ho⟩ =
        reparentOne (primaryRoot devices).id ((demoteDangling devices).get ⟨i, hc⟩) := by
      have := List.get_of_eq he ⟨i, ho⟩
      rw [this]
      simp
    rw [this, demoteDangling_get devices i hi hc]
    exact sameIdentity_trans (reparentOne_sameIdentity _ _) (demoteOne_sameIdentity _ _)
  · have he := sanitizeTopology_of_le devices h
    have : (sanitizeTopology devices).get ⟨i, ho⟩ =
        (demoteDangling devices).get ⟨i, hc⟩ := by
      have := List.get_of_eq he ⟨i, ho⟩
      rw [this]
    rw [this, demoteDangling_get devices i hi hc]
    exact demoteOne_sameIdentity _ _

/-- C3: the sanitizer treats any device whose parent reference does not match a
valid id as if `parentId = none` (demoted, never dropped); the output has
exactly the same devices in the same positions, with every field other than
`parentId` unchanged. -/
theorem sanitizer_frame_effect (devices : List NetworkDevice) :
    (sanitizeTopology devices).length = devices.length ∧
    (∀ i, (hi : i < devices.length) → (hc : i < (demoteDangling devices).length) →
      ∀ p, (devices.get ⟨i, hi⟩).parentId = some p →
        p ∉ devices.map (fun d => d.id) →
        ((demoteDangling devices).get ⟨i, hc⟩).parentId = none) ∧
    (∀ i, (hi : i < devices.length) → (ho : i < (sanitizeTopology devices).length) →
      sameIdentity ((sanitizeTopology devices).get ⟨i, ho⟩) (devices.get ⟨i, hi⟩)) := by
  refine ⟨sanitizeTopology_length devices, ?_,
    fun i hi ho => sanitizeTopology_get_sameIdentity devices i hi ho⟩
  intro i hi hc p hp hnp
  rw [demoteDangling_get devices i hi hc]
  unfold demoteOne
  simp only [List.get_eq_getElem] at hp
  simp only [List.get_eq_getElem, hp]
  rw [if_neg]
  intro hcon
  exact hnp hcon.2

/-- Input device used to instantiate the frame-effect theorem: its parent
reference "nope" matches no id in the list. -/
def danglingDev : NetworkDevice :=
  { id := "a", ip := "192.168.1.5", mac := "00:11:22:33:44:05", name := "pc",
    manufacturer := "x", devType := DeviceType.PC, parentId := some "nope",
    status := DeviceStatus.online, latency := none }

/-- Witness for the frame-effect theorem at the one-element list `[danglingDev]`. -/
theorem sanitizer_frame_effect_witness :
    (sanitizeTopology [danglingDev]).length = 1 ∧
    ((demoteDangling [danglingDev]).get ⟨0, by decide⟩).parentId = none ∧
    sameIdentity ((sanitizeTopology [danglingDev]).get ⟨0, by decide⟩)
      ([danglingDev].get ⟨0, by decide⟩) := by
  obtain ⟨h1, h2, h3⟩ := sanitizer_frame_effect [danglingDev]
  exact ⟨h1, h2 0 (by decide) (by decide) "nope" (by decide) (by decide),
    h3 0 (by decide) (by decide)⟩

theorem sanitizeTopology_map_id (devices : List NetworkDevice) :
    (sanitizeTopology devices).map (fun d => d.id) = devices.map (fun d => d.id) := by
  unfold sanitizeTopology
  split
  · calc ((demoteDangling devices).map (reparentOne (primaryRoot devices).id)).map
          (fun d => d.id)
        = (demoteDangling devices).map
            (fun d => (reparentOne (primaryRoot devices).id d).id) := by
          rw [List.map_map]
          rfl
      _ = (demoteDangling devices).map (fun d => d.id) :=
          List.map_congr_left (fun d _ => reparentOne_id _ d)
      _ = devices.map (fun d => d.id) := demoteDangling_map_id devices
  · exact demoteDangling_map_id devices

theorem countP_id_eq_one (l : List NetworkDevice)
    (h : (l.map (fun d => d.id)).Nodup)
    (a : NetworkDevice) (ha : a ∈ l) :
    l.countP (fun d => d.id = a.id) = 1 := by
  induction l with
  | nil => simp at ha
  | cons x xs ih =>
    rw [List.map_cons, List.nodup_cons] at h
    rcases List.mem_cons.mp ha with rfl | hmem
    · have hzero : xs.countP (fun d => d.id = a.id) = 0 := by
        rw [List.countP_eq_zero]
        intro d hd
        simp only [decide_eq_true_eq]
        intro hda
        apply h.1
        rw [← hda]
        exact List.mem_map_of_mem _ hd
      rw [List.countP_cons, hzero]
      simp
    · have hne : ¬ (x.id = a.id) := by
        intro he
        apply h.1
        rw [he]
        exact List.mem_map_of_mem _ hmem
      rw [List.countP_cons, ih h.2 hmem]
      simp [hne]

theorem candidateRoots_map_id_nodup (devices : List NetworkDevice)
    (h : (devices.map (fun d => d.id)).Nodup) :
    ((candidateRoots devices).map (fun d => d.id)).Nodup := by
  have hsub : (candidateRoots devices).Sublist (demoteDangling devices) :=
    List.filter_sublist _
  have : ((demoteDangling devices).map (fun d => d.id)).Nodup := by
    rw [demoteDangling_map_id]; exact h
  exact this.sublist (hsub.map _)

theorem sanitizeTopology_parent_mem_ids (devices : List NetworkDevice)
    (d : NetworkDevice) (hd : d ∈ sanitizeTopology devices) (p : String)
    (hp : d.parentId = some p) : p ∈ devices.map (fun e => e.id) := by
  unfold sanitizeTopology at hd
  by_cases hsplit : 1 < (candidateRoots devices).length
  · rw [if_pos hsplit] at hd
    obtain ⟨c, hc, rfl⟩ := List.mem_map.mp hd
    by_cases hcond : c.parentId = none ∧ ¬ c.id = (primaryRoot devices).id
    · rw [reparentOne_of_root_ne _ _ hcond.1 hcond.2] at hp
      simp only [] at hp
      have hpr : p = (primaryRoot devices).id := by
        have : some (primaryRoot devices).id = some p := hp
        exact (Option.some.injEq _ _ ▸ this).symm
      subst hpr
      have hmr := primaryRoot_mem devices (candidateRoots_ne_nil devices hsplit)
      have : primaryRoot devices ∈ demoteDangling devices :=
        (mem_candidateRoots devices _ hmr).1
      rw [← demoteDangling_map_id]
      exact List.mem_map_of_mem _ this
    · have heq : reparentOne (primaryRoot devices).id c = c := by
        unfold reparentOne
        rw [if_neg hcond]
      rw [heq] at hp
      exact (demoteDangling_parent_valid devices c hc p hp).2
  · rw [if_neg hsplit] at hd
    exact (demoteDangling_parent_valid devices d hd p hp).2

theorem sanitizeTopology_root_count (devices : List NetworkDevice)
    (hnodup : (devices.map (fun d => d.id)).Nodup)
    (hroot : candidateRoots devices ≠ []) :
    ((sanitizeTopology devices).filter (fun d => d.parentId = none)).length = 1 := by
  by_cases hsplit : 1 < (candidateRoots devices).length
  · rw [sanitizeTopology_of_lt devices hsplit, ← List.countP_eq_length_filter,
      List.countP_map]
    have hmr := primaryRoot_mem devices (candidateRoots_ne_nil devices hsplit)
    have hcongr : (demoteDangling devices).countP
        ((fun d => decide (d.parentId = none)) ∘ reparentOne (primaryRoot devices).id)
        = (demoteDangling devices).countP
            (fun d => decide (d.id = (primaryRoot devices).id) &&
              decide (d.parentId = none)) := by
      apply List.countP_congr
      intro c _
      simp only [Function.comp_apply, Bool.and_eq_true, decide_eq_true_eq]
      constructor
      · intro hnone
        by_cases hcond : c.parentId = none ∧ ¬ c.id = (primaryRoot devices).id
        · rw [reparentOne_of_root_ne _ _ hcond.1 hcond.2] at hnone
          simp at hnone
        · have heq : reparentOne (primaryRoot devices).id c = c := by
            unfold reparentOne
            rw [if_neg hcond]
          rw [heq] at hnone
          refine ⟨?_, hnone⟩
          by_contra hne
          exact hcond ⟨hnone, hne⟩
      · intro ⟨hid, hnone⟩
        rw [reparentOne_of_id_eq _ _ hid]
        exact hnone
    rw [hcongr, ← List.countP_filter]
    have : (demoteDangling devices).filter (fun d => decide (d.parentId = none))
        = candidateRoots devices := rfl
    rw [this]
    exact countP_id_eq_one (candidateRoots devices)
      (candidateRoots_map_id_nodup devices hnodup) (primaryRoot devices) hmr
  · rw [sanitizeTopology_of_le devices hsplit]
    have h1 : ((demoteDangling devices).filter
        (fun d => d.parentId = none)).length = (candidateRoots devices).length := rfl
    rw [h1]
    have h2 : (candidateRoots devices).length ≤ 1 := le_of_not_lt hsplit
    have h3 : 0 < (candidateRoots devices).length := List.length_pos.mpr hroot
    omega

/-- A single device whose parent reference is its own id.  Demotion keeps the
reference (it is a valid id), so the sanitized output contains no candidate
root at all: an input with zero candidate roots is not repaired into a tree. -/
def selfLoopDevice : NetworkDevice :=
  { id := "a", ip := "192.168.1.5", mac := "00:11:22:33:44:05", name := "loop",
    manufacturer := "x", devType := DeviceType.PC, parentId := some "a",
    status := DeviceStatus.online, latency := none }

/-- C1 counterexample: on the input `[selfLoopDevice]` (zero candidate roots
after demotion) the sanitizer output contains no device with `parentId = none`,
so "exactly one device has no parent" fails for an input with 0 candidate
roots. -/
theorem sanitizer_single_root_counterexample :
    ¬ ((sanitizeTopology [selfLoopDevice]).filter
        (fun d => d.parentId = none)).length = 1 := by decide

/-- C1 (amended): for every input whose ids are pairwise distinct and whose
demotion pass leaves at least one candidate root, the sanitizer output has
exactly one device with no parent, and every parent reference in the output
resolves to the id of a device of the output. -/
theorem sanitizer_single_root (devices : List NetworkDevice)
    (hnodup : (devices.map (fun d => d.id)).Nodup)
    (hroot : ∃ d ∈ demoteDangling devices, d.parentId = none) :
    ((sanitizeTopology devices).filter (fun d => d.parentId = none)).length = 1 ∧
    ∀ d ∈ sanitizeTopology devices, ∀ p, d.parentId = some p →
      ∃ e ∈ sanitizeTopology devices, e.id = p := by
  constructor
  · apply sanitizeTopology_root_count devices hnodup
    obtain ⟨d, hd, hp⟩ := hroot
    exact List.ne_nil_of_mem (List.mem_filter.mpr ⟨hd, by simp [hp]⟩)
  · intro d hd p hp
    have hmem : p ∈ devices.map (fun e => e.id) :=
      sanitizeTopology_parent_mem_ids devices d hd p hp
    rw [← sanitizeTopology_map_id] at hmem
    obtain ⟨e, he, heq⟩ := List.mem_map.mp hmem
    exact ⟨e, he, heq⟩

/-- Two-device input for the C1 witness: a root router and a device with a
dangling parent reference. -/
def rootRouterDev : NetworkDevice :=
  { id := "r", ip := "192.168.1.1", mac := "00:11:22:33:44:01", name := "gw",
    manufacturer := "x", devType := DeviceType.ROUTER, parentId := none,
    status := DeviceStatus.online, latency := none }

/-- Witness for the amended C1 theorem on `[rootRouterDev, danglingDev]`. -/
theorem sanitizer_single_root_witness :
    ((sanitizeTopology [rootRouterDev, danglingDev]).filter
      (fun d => d.parentId = none)).length = 1 ∧
    ∀ d ∈ sanitizeTopology [rootRouterDev, danglingDev], ∀ p,
      d.parentId = some p →
      ∃ e ∈ sanitizeTopology [rootRouterDev, danglingDev], e.id = p :=
  sanitizer_single_root [rootRouterDev, danglingDev] (by decide)
    ⟨(demoteDangling [rootRouterDev, danglingDev]).get ⟨0, by decide⟩,
      by decide, by decide⟩

theorem sanitizeTopology_get_of_lt (devices : List NetworkDevice)
    (h : 1 < (candidateRoots devices).length) (i : Nat)
    (hc : i < (demoteDangling devices).length)
    (ho : i < (sanitizeTopology devices).length) :
    (sanitizeTopology devices).get ⟨i, ho⟩ =
      reparentOne (primaryRoot devices).id ((demoteDangling devices).get ⟨i, hc⟩) := by
  have he := sanitizeTopology_of_lt devices h
  have hg := List.get_of_eq he ⟨i, ho⟩
  rw [hg]
  simp

/-- C2: when more than one candidate root remains after demotion, the sanitizer
elects a primary root deterministically — a Router among the candidate roots if
one exists, otherwise the first candidate root in input order — and reparents
every candidate root whose id differs from the primary root's id to the
primary root's id, discarding no device. -/
theorem sanitizer_primary_root_election (devices : List NetworkDevice)
    (hmulti : 1 < (candidateRoots devices).length) :
    (sanitizeTopology devices).length = devices.length ∧
    primaryRoot devices ∈ candidateRoots devices ∧
    ((∃ r ∈ candidateRoots devices, r.devType = DeviceType.ROUTER) →
      (primaryRoot devices).devType = DeviceType.ROUTER) ∧
    ((∀ r ∈ candidateRoots devices, r.devType ≠ DeviceType.ROUTER) →
      primaryRoot devices = (candidateRoots devices).headD default) ∧
    (∀ i, (hc : i < (demoteDangling devices).length) →
      (ho : i < (sanitizeTopology devices).length) →
      ((demoteDangling devices).get ⟨i, hc⟩).parentId = none →
      ¬ ((demoteDangling devices).get ⟨i, hc⟩).id = (primaryRoot devices).id →
      ((sanitizeTopology devices).get ⟨i, ho⟩).parentId =
        some (primaryRoot devices).id) := by
  refine ⟨sanitizeTopology_length devices,
    primaryRoot_mem devices (candidateRoots_ne_nil devices hmulti), ?_, ?_, ?_⟩
  · intro ⟨r, hr, hrt⟩
    unfold primaryRoot
    cases hf : (candidateRoots devices).find?
        (fun r => r.devType = DeviceType.ROUTER) with
    | some q =>
      have := List.find?_some hf
      simpa using this
    | none =>
      exfalso
      have := List.find?_eq_none.mp hf r hr
      simp [hrt] at this
  · intro hno
    unfold primaryRoot
    cases hf : (candidateRoots devices).find?
        (fun r => r.devType = DeviceType.ROUTER) with
    | some q =>
      exfalso
      have hq := List.find?_some hf
      have hmem := List.mem_of_find?_eq_some hf
      exact hno q hmem (by simpa using hq)
    | none => rfl
  · intro i hc ho hnone hne
    rw [sanitizeTopology_get_of_lt devices hmulti i hc ho,
      reparentOne_of_root_ne _ _ hnone hne]

/-- A candidate-root PC device, listed before the router in the C2 witness. -/
def pcRootDev : NetworkDevice :=
  { id := "b", ip := "192.168.1.20", mac := "00:11:22:33:44:14", name := "pc-b",
    manufacturer := "x", devType := DeviceType.PC, parentId := none,
    status := DeviceStatus.online, latency := none }

/-- Witness for the primary-root election theorem: with two candidate roots,
the Router is preferred even when listed second, and the PC root is reparented
to it. -/
theorem sanitizer_primary_root_election_witness :
    (sanitizeTopology [pcRootDev, rootRouterDev]).length = 2 ∧
    primaryRoot [pcRootDev, rootRouterDev] ∈
      candidateRoots [pcRootDev, rootRouterDev] ∧
    (primaryRoot [pcRootDev, rootRouterDev]).devType = DeviceType.ROUTER ∧
    ((sanitizeTopology [pcRootDev, rootRouterDev]).get ⟨0, by decide⟩).parentId =
      some (primaryRoot [pcRootDev, rootRouterDev]).id := by
  obtain ⟨h1, h2, h3, h4, h5⟩ :=
    sanitizer_primary_root_election [pcRootDev, rootRouterDev] (by decide)
  exact ⟨h1, h2, h3 (by decide), h5 0 (by decide) (by decide) (by decide) (by decide)⟩

theorem reparent_map_id (devices : List NetworkDevice) (m : String) :
    ((demoteDangling devices).map (reparentOne m)).map (fun d => d.id) =
      devices.map (fun d => d.id) := by
  rw [List.map_map]
  calc (demoteDangling devices).map ((fun d => d.id) ∘ reparentOne m)
      = (demoteDangling devices).map (fun d => d.id) :=
        List.map_congr_left (fun d _ => reparentOne_id m d)
    _ = devices.map (fun d => d.id) := demoteDangling_map_id devices

theorem demoteDangling_reparent (devices : List NetworkDevice) (m : String)
    (hmne : m ≠ "") (hm : m ∈ devices.map (fun d => d.id)) :
    demoteDangling ((demoteDangling devices).map (reparentOne m)) =
      (demoteDangling devices).map (reparentOne m) := by
  have h1 : demoteDangling ((demoteDangling devices).map (reparentOne m))
      = ((demoteDangling devices).map (reparentOne m)).map
          (demoteOne (devices.map (fun d => d.id))) := by
    rw [← reparent_map_id devices m]
    rfl
  rw [h1, List.map_map]
  unfold demoteDangling
  rw [List.map_map, List.map_map]
  apply List.map_congr_left
  intro d _
  exact demoteOne_reparentOne _ m hmne hm d

theorem demoteDangling_reparent_empty (devices : List NetworkDevice) :
    demoteDangling ((demoteDangling devices).map (reparentOne "")) =
      demoteDangling devices := by
  have h1 : demoteDangling ((demoteDangling devices).map (reparentOne ""))
      = ((demoteDangling devices).map (reparentOne "")).map
          (demoteOne (devices.map (fun d => d.id))) := by
    rw [← reparent_map_id devices ""]
    rfl
  rw [h1, List.map_map]
  unfold demoteDangling
  rw [List.map_map]
  apply List.map_congr_left
  intro d _
  exact demoteOne_reparentOne_empty _ d

theorem reparent_root_eq_id (m : String) (c : NetworkDevice)
    (hp : (reparentOne m c).parentId = none) : (reparentOne m c).id = m := by
  unfold reparentOne at hp ⊢
  by_cases hcond : c.parentId = none ∧ ¬ c.id = m
  · rw [if_pos hcond] at hp
    simp at hp
  · rw [if_neg hcond] at hp ⊢
    by_contra hne
    exact hcond ⟨hp, hne⟩

theorem primaryRoot_congr (xs ys : List NetworkDevice)
    (h : candidateRoots xs = candidateRoots ys) : primaryRoot xs = primaryRoot ys := by
  unfold primaryRoot
  rw [h]

/-- C4: the sanitizer is idempotent — re-running it on its own output returns
that output unchanged, for every input device list. -/
theorem sanitizer_idempotent (devices : List NetworkDevice) :
    sanitizeTopology (sanitizeTopology devices) = sanitizeTopology devices := by
  by_cases hmulti : 1 < (candidateRoots devices).length
  · rw [sanitizeTopology_of_lt devices hmulti]
    by_cases hme : (primaryRoot devices).id = ""
    · have hdd : demoteDangling ((demoteDangling devices).map
          (reparentOne (primaryRoot devices).id)) = demoteDangling devices := by
        rw [hme]
        exact demoteDangling_reparent_empty devices
      have hcr : candidateRoots ((demoteDangling devices).map
          (reparentOne (primaryRoot devices).id)) = candidateRoots devices := by
        unfold candidateRoots
        rw [hdd]
      have hpr : primaryRoot ((demoteDangling devices).map
          (reparentOne (primaryRoot devices).id)) = primaryRoot devices :=
        primaryRoot_congr _ _ hcr
      rw [sanitizeTopology_of_lt _ (by rw [hcr]; exact hmulti), hdd, hpr]
    · have hmm : (primaryRoot devices).id ∈ devices.map (fun d => d.id) := by
        have h1 := primaryRoot_mem devices (candidateRoots_ne_nil devices hmulti)
        have h2 := (mem_candidateRoots devices _ h1).1
        rw [← demoteDangling_map_id]
        exact List.mem_map_of_mem _ h2
      have hdd : demoteDangling ((demoteDangling devices).map
          (reparentOne (primaryRoot devices).id)) =
          (demoteDangling devices).map (reparentOne (primaryRoot devices).id) :=
        demoteDangling_reparent devices _ hme hmm
      by_cases hm2 : 1 < (candidateRoots ((demoteDangling devices).map
          (reparentOne (primaryRoot devices).id))).length
      · rw [sanitizeTopology_of_lt _ hm2, hdd]
        have hproot := primaryRoot_mem _ (candidateRoots_ne_nil _ hm2)
        have hpo := mem_candidateRoots _ _ hproot
        have hpo1 := hpo.1
        rw [hdd] at hpo1
        obtain ⟨c, _, hceq⟩ := List.mem_map.mp hpo1
        have hcnone : (reparentOne (primaryRoot devices).id c).parentId = none := by
          rw [hceq]
          exact hpo.2
        have hm2eq : (primaryRoot ((demoteDangling devices).map
            (reparentOne (primaryRoot devices).id))).id = (primaryRoot devices).id := by
          rw [← hceq]
          exact reparent_root_eq_id _ c hcnone
        calc ((demoteDangling devices).map (reparentOne (primaryRoot devices).id)).map
              (reparentOne (primaryRoot ((demoteDangling devices).map
                (reparentOne (primaryRoot devices).id))).id)
            = ((demoteDangling devices).map
                (reparentOne (primaryRoot devices).id)).map id := by
              apply List.map_congr_left
              intro d hd
              cases hpd : d.parentId with
              | some p => exact reparentOne_of_some _ _ p hpd
              | none =>
                apply reparentOne_of_id_eq
                obtain ⟨e, _, heeq⟩ := List.mem_map.mp hd
                rw [hm2eq, ← heeq]
                apply reparent_root_eq_id
                rw [heeq]
                exact hpd
          _ = (demoteDangling devices).map (reparentOne (primaryRoot devices).id) :=
              List.map_id _
      · rw [sanitizeTopology_of_le _ hm2, hdd]
  · rw [sanitizeTopology_of_le devices hmulti]
    have hdd := demoteDangling_idem devices
    have hcr : candidateRoots (demoteDangling devices) = candidateRoots devices := by
      unfold candidateRoots
      rw [hdd]
    rw [sanitizeTopology_of_le (demoteDangling devices) (by rw [hcr]; exact hmulti), hdd]

/-! ### Retry wrapper (geminiService.ts lines 165-185) -/

/-- Error shape inspected by `retryWithBackoff`: the wrapper reads
`error?.code`, `error?.status` and `error?.message`. -/
structure ApiError where
  code : Option Nat
  status : Option Nat
  message : Option String
deriving DecidableEq, Repr, Inhabited

/-- The JavaScript expression `error?.code || error?.status` (line 170): a
missing or zero (falsy) `code` falls through to `status`. -/
def errCode (e : ApiError) : Option Nat :=
  match e.code with
  | some c => if c ≠ 0 then some c else e.status
  | none => e.status

/-- JavaScript `String.prototype.includes`: substring test. -/
def strContains (s pat : String) : Bool :=
  s.toList.tails.any (fun t => pat.toList.isPrefixOf t)

/-- The transient-error test of geminiService.ts lines 171-172:
`errorCode === 503 || errorCode === 429 ||
 (error?.message && error.message.includes('overloaded'))`;
an empty message is falsy in JavaScript. -/
def isTransientError (e : ApiError) : Bool :=
  (errCode e == some 503 || errCode e == some 429) ||
    (match e.message with
     | some m => !(m == "") && strContains m "overloaded"
     | none => false)

/-- The retry wrapper of geminiService.ts lines 165-185.  The operation is
modelled as a function from the invocation index to its outcome; the result
records the final outcome, the number of invocations, and the list of waits
performed (the code's `setTimeout` delays).  Source defaults: `retries = 3`,
`delay = 2000`; on a transient failure with attempts left it retries with the
delay doubled, otherwise it rethrows the error unchanged. -/
def retryWithBackoff {T : Type} (op : Nat → Except ApiError T) :
    Nat → Nat → Nat → Except ApiError T × Nat × List Nat
  | k, retries, delay =>
    match op k with
    | Except.ok v => (Except.ok v, 1, [])
    | Except.error e =>
      match retries with
      | r + 1 =>
        if isTransientError e then
          let rest := retryWithBackoff op (k + 1) r (delay * 2)
          (rest.1, rest.2.1 + 1, delay :: rest.2.2)
        else (Except.error e, 1, [])
      | 0 => (Except.error e, 1, [])

theorem retryWithBackoff_ok {T : Type} (op : Nat → Except ApiError T)
    (k r delay : Nat) (v : T) (h : op k = Except.ok v) :
    retryWithBackoff op k r delay = (Except.ok v, 1, []) := by
  unfold retryWithBackoff
  rw [h]

theorem retryWithBackoff_transient {T : Type} (op : Nat → Except ApiError T)
    (k r delay : Nat) (e : ApiError) (h : op k = Except.error e)
    (ht : isTransientError e = true) :
    retryWithBackoff op k (r + 1) delay =
      ((retryWithBackoff op (k + 1) r (delay * 2)).1,
       (retryWithBackoff op (k + 1) r (delay * 2)).2.1 + 1,
       delay :: (retryWithBackoff op (k + 1) r (delay * 2)).2.2) := by
  conv_lhs => rw [retryWithBackoff]
  rw [h]
  simp only []
  rw [if_pos ht]

theorem retryWithBackoff_stop {T : Type} (op : Nat → Except ApiError T)
    (k r delay : Nat) (e : ApiError) (h : op k = Except.error e)
    (ht : isTransientError e = false) :
    retryWithBackoff op k (r + 1) delay = (Except.error e, 1, []) := by
  conv_lhs => rw [retryWithBackoff]
  rw [h]
  simp only []
  rw [if_neg (by simp [ht])]

/-- C5: an operation that fails twice with a 429 error and then succeeds is
invoked exactly 3 times and the wrapper returns the success value; an operation
that fails with a non-transient error is invoked exactly once and that error is
propagated unchanged.  The call uses the source defaults (3 retries, 2000 ms). -/
theorem retry_invocation_semantics {T : Type} (v : T) (e f : ApiError)
    (op op2 : Nat → Except ApiError T)
    (he : errCode e = some 429)
    (h0 : op 0 = Except.error e) (h1 : op 1 = Except.error e)
    (h2 : op 2 = Except.ok v)
    (hf : isTransientError f = false) (g0 : op2 0 = Except.error f) :
    retryWithBackoff op 0 3 2000 = (Except.ok v, 3, [2000, 4000]) ∧
    retryWithBackoff op2 0 3 2000 = (Except.error f, 1, []) := by
  have htrans : isTransientError e = true := by
    unfold isTransientError
    rw [he]
    simp
  constructor
  · have e1 : retryWithBackoff op 2 1 8000 = (Except.ok v, 1, []) :=
      retryWithBackoff_ok op 2 1 8000 v h2
    have e2 : retryWithBackoff op 1 (1 + 1) 4000 = (Except.ok v, 2, [4000]) := by
      rw [retryWithBackoff_transient op 1 1 4000 e h1 htrans]
      norm_num [e1]
    have e3 : retryWithBackoff op 0 (2 + 1) 2000 = (Except.ok v, 3, [2000, 4000]) := by
      rw [retryWithBackoff_transient op 0 2 2000 e h0 htrans]
      norm_num [e2]
    exact e3
  · exact retryWithBackoff_stop op2 0 2 2000 f g0 hf

/-- A plain HTTP 429 error. -/
def err429 : ApiError := { code := some 429, status := none, message := none }

/-- A non-transient error (HTTP 401 with an unrelated message). -/
def errAuth : ApiError :=
  { code := some 401, status := none, message := some "unauthorized" }

/-- Operation that fails twice with `err429` and then succeeds with 7. -/
def flakyOp : Nat → Except ApiError Nat :=
  fun k => if k < 2 then Except.error err429 else Except.ok 7

/-- Operation that always fails with the non-transient `errAuth`. -/
def fatalOp : Nat → Except ApiError Nat :=
  fun _ => Except.error errAuth

/-- Witness for the retry-semantics theorem at `flakyOp` and `fatalOp`. -/
theorem retry_invocation_semantics_witness :
    retryWithBackoff flakyOp 0 3 2000 = (Except.ok 7, 3, [2000, 4000]) ∧
    retryWithBackoff fatalOp 0 3 2000 = (Except.error errAuth, 1, []) :=
  retry_invocation_semantics 7 err429 errAuth flakyOp fatalOp (by decide)
    rfl rfl rfl (by decide) rfl

/-- Transient-error classification as §4.1 of the spec words it: HTTP 429,
HTTP 503, or a message containing "overloaded", "quota", or
"RESOURCE_EXHAUSTED".  This definition follows the spec's words, to be
compared against `isTransientError`, which embeds the code's test. -/
def specTransientSignature (e : ApiError) : Bool :=
  (errCode e == some 429 || errCode e == some 503) ||
    (match e.message with
     | some m => strContains m "overloaded" || strContains m "quota" ||
         strContains m "RESOURCE_EXHAUSTED"
     | none => false)

/-- Error whose message mentions a quota problem but carries no HTTP code. -/
def errQuota : ApiError :=
  { code := none, status := none, message := some "quota exceeded" }

/-- C6 counterexample: on an error whose message contains "quota" the spec's
classification says transient but the code's test says non-transient — the
code checks only 429, 503 and the substring "overloaded". -/
theorem retry_classification_counterexample :
    specTransientSignature errQuota = true ∧
    isTransientError errQuota = false := by decide

theorem retry_waits_geometric {T : Type} (op : Nat → Except ApiError T) :
    ∀ (retries k delay i x : Nat),
      (retryWithBackoff op k retries delay).2.2.get? i = some x →
      x = delay * 2 ^ i := by
  intro retries
  induction retries with
  | zero =>
    intro k delay i x hx
    cases hop : op k with
    | ok v =>
      rw [retryWithBackoff_ok op k 0 delay v hop] at hx
      simp at hx
    | error e =>
      have hz : retryWithBackoff op k 0 delay = (Except.error e, 1, []) := by
        unfold retryWithBackoff
        rw [hop]
      rw [hz] at hx
      simp at hx
  | succ r ih =>
    intro k delay i x hx
    cases hop : op k with
    | ok v =>
      rw [retryWithBackoff_ok op k (r + 1) delay v hop] at hx
      simp at hx
    | error e =>
      cases htr : isTransientError e with
      | false =>
        rw [retryWithBackoff_stop op k r delay e hop htr] at hx
        simp at hx
      | true =>
        rw [retryWithBackoff_transient op k r delay e hop htr] at hx
        rcases i with _ | j
        · simp at hx
          simp [← hx]
        · simp only [List.get?_cons_succ] at hx
          rw [ih (k + 1) (delay * 2) j x hx, pow_succ]
          ring

theorem isTransientError_iff (e : ApiError) :
    isTransientError e = true ↔
      (errCode e = some 429 ∨ errCode e = some 503 ∨
        ∃ m, e.message = some m ∧ strContains m "overloaded" = true) := by
  unfold isTransientError
  cases hm : e.message with
  | none =>
    simp [hm, Bool.or_eq_true, beq_iff_eq]
    tauto
  | some m =>
    by_cases hme : m = ""
    · subst hme
      have hno : strContains "" "overloaded" = false := by decide
      simp [hm, Bool.or_eq_true, beq_iff_eq, hno]
      tauto
    · simp [hm, Bool.or_eq_true, beq_iff_eq, hme]
      tauto

/-- C6 (amended): the wrapper classifies an error as transient exactly when
its code-or-status is 429 or 503 or its message contains "overloaded" (the
code does not test for "quota" or "RESOURCE_EXHAUSTED"); on each transient
failure with attempts remaining it waits the current delay and doubles it,
so the i-th wait is `delay * 2 ^ i` from the caller's initial delay (2000 ms
at the source call sites), with no cap. -/
theorem retry_classification_and_backoff :
    (∀ e : ApiError, isTransientError e = true ↔
      (errCode e = some 429 ∨ errCode e = some 503 ∨
        ∃ m, e.message = some m ∧ strContains m "overloaded" = true)) ∧
    (∀ (T : Type) (op : Nat → Except ApiError T) (retries k delay i x : Nat),
      (retryWithBackoff op k retries delay).2.2.get? i = some x →
      x = delay * 2 ^ i) :=
  ⟨isTransientError_iff, fun _ op retries k delay i x h =>
    retry_waits_geometric op retries k delay i x h⟩

/-- Error carrying only an "overloaded" message. -/
def errOverloadedMsg : ApiError :=
  { code := none, status := none, message := some "model overloaded" }

/-- Witness for the amended classification-and-backoff theorem: concrete
classification of an "overloaded" message and the first two waits of the
default 2000 ms schedule. -/
theorem retry_classification_and_backoff_witness :
    (isTransientError errOverloadedMsg = true ↔
      (errCode errOverloadedMsg = some 429 ∨ errCode errOverloadedMsg = some 503 ∨
        ∃ m, errOverloadedMsg.message = some m ∧
          strContains m "overloaded" = true)) ∧
    (2000 : Nat) = 2000 * 2 ^ 0 ∧ (4000 : Nat) = 2000 * 2 ^ 1 :=
  ⟨retry_classification_and_backoff.1 errOverloadedMsg,
   retry_classification_and_backoff.2 Nat flakyOp 3 0 2000 0 2000 (by decide),
   retry_classification_and_backoff.2 Nat flakyOp 3 0 2000 1 4000 (by decide)⟩

/-! ### Subnet prober (geminiService.ts lines 444-577) -/

/-- Outcome of one per-address HTTP probe, the three observable cases of
checkIp (lines 464-493): the fetch settles in time (possibly with an HTTP
error status), the abort controller fires (timeout), or the fetch rejects
immediately (connection refused / reset / CORS block). -/
inductive ProbeOutcome
  | ok (latency : Nat)
  | abortTimeout
  | fastError
deriving DecidableEq, Repr

/-- Uppercase hexadecimal digit. -/
def hexDigit (n : Nat) : Char :=
  "0123456789ABCDEF".toList.getD n 'X'

/-- Synthetic MAC of createDeviceFromIp (line 511):
`00:11:22:33:44:` followed by
`suffix.toString(16).padStart(2, '0').toUpperCase()`, written out for the
scanned range 1-254 (two hex digits). -/
def fakeMac (suffix : Nat) : String :=
  "00:11:22:33:44:" ++ String.mk [hexDigit (suffix / 16 % 16), hexDigit (suffix % 16)]

/-- createDeviceFromIp (geminiService.ts lines 496-524): classify by the
numeric suffix (1/254 Router, >200 Mobile, <10 Server, default PC) and build
the device record. -/
def createDeviceFromIp (subnetBase : String) (suffix : Nat) (latency : Nat) :
    NetworkDevice :=
  let ip := subnetBase ++ toString suffix
  let t : DeviceType :=
    if suffix = 1 ∨ suffix = 254 then DeviceType.ROUTER
    else if 200 < suffix then DeviceType.MOBILE
    else if suffix < 10 then DeviceType.SERVER
    else DeviceType.PC
  let nm : String :=
    if suffix = 1 ∨ suffix = 254 then "Gateway / Router" else "Device " ++ ip
  { id := "auto-" ++ ip, ip := ip, mac := fakeMac suffix, name := nm,
    manufacturer := "Generic Network Device", devType := t,
    parentId := none, status := DeviceStatus.online, latency := some latency }

/-- checkIp (geminiService.ts lines 464-493): a settled fetch yields a device
with the measured latency; an AbortError (timeout) yields nothing; any other
immediate failure yields a device with the nominal 5 ms latency. -/
def checkIp (subnetBase : String) (probe : Nat → ProbeOutcome) (suffix : Nat) :
    Option NetworkDevice :=
  match probe suffix with
  | ProbeOutcome.ok latency => some (createDeviceFromIp subnetBase suffix latency)
  | ProbeOutcome.abortTimeout => none
  | ProbeOutcome.fastError => some (createDeviceFromIp subnetBase suffix 5)

/-- The probed address range `Array.from({length: 254}, (_, i) => i + 1)`
(line 461). -/
def scanIps : List Nat := (List.range 254).map (fun i => i + 1)

/-- Number of parallel requests per batch (line 457). -/
def batchSize : Nat := 12

/-- JavaScript `Math.round` applied to the nonnegative fraction `num / den`:
floor of the value plus one half. -/
def jsRound (num den : Nat) : Nat := (2 * num + den) / (2 * den)

/-- Batch start indices of the loop
`for (let i = 0; i < ips.length; i += batchSize)` (line 527). -/
def batchStarts (len bs : Nat) : List Nat :=
  (List.range ((len + bs - 1) / bs)).map (fun b => b * bs)

/-- One iteration of the batch loop (lines 527-539): probe the slice
`ips.slice(i, i + batchSize)`, append the found devices in order (Promise.all
preserves order), and record the progress-callback arguments
`(Math.round(((i + batchSize) / ips.length) * 100), activeDevices.length)`. -/
def scanBatchStep (subnetBase : String) (probe : Nat → ProbeOutcome)
    (st : List NetworkDevice × List (Nat × Nat)) (i : Nat) :
    List NetworkDevice × List (Nat × Nat) :=
  let batch := (scanIps.drop i).take batchSize
  let results := batch.filterMap (checkIp subnetBase probe)
  let acc := st.1 ++ results
  (acc, st.2 ++ [(jsRound ((i + batchSize) * 100) scanIps.length, acc.length)])

/-- The accumulation phase of scanSubnet (lines 452-539): run every batch in
order starting from empty accumulators; the second component logs one
progress-callback invocation per batch. -/
def scanActive (subnetBase : String) (probe : Nat → ProbeOutcome) :
    List NetworkDevice × List (Nat × Nat) :=
  (batchStarts scanIps.length batchSize).foldl (scanBatchStep subnetBase probe) ([], [])

/-- The root election of scanSubnet's post-processing (line 543):
`activeDevices.find(d => d.type === DeviceType.ROUTER) || activeDevices[0]`. -/
def scanRouter (devices : List NetworkDevice) : Option NetworkDevice :=
  match devices.find? (fun d => d.devType = DeviceType.ROUTER) with
  | some r => some r
  | none => devices.head?

/-- The synthesized aggregation switch of scanSubnet (lines 549-559). -/
def virtualSwitch (subnetBase : String) (routerId : String) : NetworkDevice :=
  { id := "virt-switch", ip := subnetBase ++ "2", mac := "00:00:00:00:00:SW",
    name := "Switch Principale", manufacturer := "Virtual Switch",
    devType := DeviceType.SWITCH, parentId := some routerId,
    status := DeviceStatus.online, latency := some 1 }

/-- One step of the reparenting loop in the virtual-switch branch (lines
565-567): `if (d.id !== router.id && d.id !== switchDev.id) d.parentId =
switchDev.id`. -/
def attachSwitchOne (routerId switchId : String) (d : NetworkDevice) :
    NetworkDevice :=
  if ¬ d.id = routerId ∧ ¬ d.id = switchId then
    { d with parentId := some switchId }
  else d

/-- One step of the reparenting loop in the few-devices branch (lines
570-572): `if (d.id !== router.id) d.parentId = router.id`. -/
def attachRouterOne (routerId : String) (d : NetworkDevice) : NetworkDevice :=
  if ¬ d.id = routerId then { d with parentId := some routerId } else d

/-- The virtual-switch branch of the post-processing (lines 548-567): push the
synthesized switch unless its reserved `.2` address is already present, then
attach every device other than the router and the switch to the switch. -/
def attachToSwitch (subnetBase : String) (routerId : String)
    (devices : List NetworkDevice) : List NetworkDevice :=
  let switchDev := virtualSwitch subnetBase routerId
  let withSwitch :=
    if (devices.find? (fun d => d.ip = switchDev.ip)).isNone
    then devices ++ [switchDev] else devices
  withSwitch.map (attachSwitchOne routerId switchDev.id)

/-- The few-devices branch of the post-processing (lines 569-572): attach
every device other than the router directly to the router. -/
def attachToRouter (routerId : String) (devices : List NetworkDevice) :
    List NetworkDevice :=
  devices.map (attachRouterOne routerId)

/-- The topology post-processing of scanSubnet (lines 541-574): when a root
exists and more than one device was found, either synthesize a virtual switch
(more than 5 devices) and attach every other device to it, or attach every
other device directly to the root. -/
def postProcessTopology (subnetBase : String) (devices : List NetworkDevice) :
    List NetworkDevice :=
  match scanRouter devices with
  | none => devices
  | some router =>
    if 1 < devices.length then
      if 5 < devices.length then attachToSwitch subnetBase router.id devices
      else attachToRouter router.id devices
    else devices

/-- scanSubnet (geminiService.ts lines 452-577): the batched scan followed by
the topology post-processing; the second component is the progress log. -/
def scanSubnet (subnetBase : String) (probe : Nat → ProbeOutcome) :
    List NetworkDevice × List (Nat × Nat) :=
  let st := scanActive subnetBase probe
  (postProcessTopology subnetBase st.1, st.2)

/-- Probe behavior where only addresses 1, 50 and 254 respond (the spec's
host-prober test vector). -/
def probeTriple : Nat → ProbeOutcome := fun n =>
  if n = 1 ∨ n = 50 ∨ n = 254 then ProbeOutcome.ok 10 else ProbeOutcome.abortTimeout

/-- C9: per-address probe semantics: a timeout yields no device (host absent,
folded into the option result, never an exception — `checkIp` is total); a
request that settles yields a present host carrying the measured latency; a
fast failure yields a present host with the nominal 5 ms latency; and an
address yields no device exactly when its probe timed out. -/
theorem probe_outcome_semantics (subnetBase : String)
    (probe : Nat → ProbeOutcome) (n : Nat) :
    (probe n = ProbeOutcome.abortTimeout → checkIp subnetBase probe n = none) ∧
    (∀ lat, probe n = ProbeOutcome.ok lat →
      checkIp subnetBase probe n = some (createDeviceFromIp subnetBase n lat)) ∧
    (probe n = ProbeOutcome.fastError →
      checkIp subnetBase probe n = some (createDeviceFromIp subnetBase n 5) ∧
      (createDeviceFromIp subnetBase n 5).latency = some 5) ∧
    (checkIp subnetBase probe n = none ↔ probe n = ProbeOutcome.abortTimeout) := by
  refine ⟨?_, ?_, ?_, ?_⟩
  · intro h
    unfold checkIp
    rw [h]
  · intro lat h
    unfold checkIp
    rw [h]
  · intro h
    refine ⟨?_, rfl⟩
    unfold checkIp
    rw [h]
  · unfold checkIp
    cases hp : probe n <;> simp

/-- Probe behavior with one settled response, one fast failure, and timeouts
elsewhere. -/
def probeMixed : Nat → ProbeOutcome := fun n =>
  if n = 1 then ProbeOutcome.ok 12
  else if n = 9 then ProbeOutcome.fastError
  else ProbeOutcome.abortTimeout

/-- Witness for the probe-semantics theorem on `probeMixed`. -/
theorem probe_outcome_semantics_witness :
    checkIp "192.168.1." probeMixed 2 = none ∧
    checkIp "192.168.1." probeMixed 1 =
      some (createDeviceFromIp "192.168.1." 1 12) ∧
    checkIp "192.168.1." probeMixed 9 =
      some (createDeviceFromIp "192.168.1." 9 5) ∧
    (createDeviceFromIp "192.168.1." 9 5).latency = some 5 :=
  ⟨(probe_outcome_semantics "192.168.1." probeMixed 2).1 (by decide),
   (probe_outcome_semantics "192.168.1." probeMixed 1).2.1 12 (by decide),
   ((probe_outcome_semantics "192.168.1." probeMixed 9).2.2.1 (by decide)).1,
   ((probe_outcome_semantics "192.168.1." probeMixed 9).2.2.1 (by decide)).2⟩

set_option maxRecDepth 10000 in
/-- C8: the device kind assigned by the prober depends only on the numeric
suffix — 1 and 254 Router; otherwise above 200 Mobile; otherwise below 10
Server; otherwise PC — and with only addresses 1, 50, 254 responding the scan
returns exactly 3 devices with 1 and 254 classified Router and 50 classified
PC. -/
theorem classification_by_suffix :
    (∀ (base : String) (n lat : Nat),
      ((n = 1 ∨ n = 254) →
        (createDeviceFromIp base n lat).devType = DeviceType.ROUTER) ∧
      (¬ (n = 1 ∨ n = 254) → 200 < n →
        (createDeviceFromIp base n lat).devType = DeviceType.MOBILE) ∧
      (¬ (n = 1 ∨ n = 254) → n < 10 →
        (createDeviceFromIp base n lat).devType = DeviceType.SERVER) ∧
      (¬ (n = 1 ∨ n = 254) → ¬ 200 < n → ¬ n < 10 →
        (createDeviceFromIp base n lat).devType = DeviceType.PC)) ∧
    (scanSubnet "192.168.1." probeTriple).1.length = 3 ∧
    (scanSubnet "192.168.1." probeTriple).1.map (fun d => (d.ip, d.devType)) =
      [("192.168.1.1", DeviceType.ROUTER), ("192.168.1.50", DeviceType.PC),
       ("192.168.1.254", DeviceType.ROUTER)] := by
  refine ⟨?_, by decide, by decide⟩
  intro base n lat
  refine ⟨?_, ?_, ?_, ?_⟩
  · intro h1
    simp [createDeviceFromIp, h1]
  · intro h1 h2
    simp [createDeviceFromIp, h1, h2]
  · intro h1 h2
    have h3 : ¬ 200 < n := by omega
    simp [createDeviceFromIp, h1, h2, h3]
  · intro h1 h2 h3
    simp [createDeviceFromIp, h1, h2, h3]

/-- Witness for the suffix-classification theorem at suffixes 254, 201, 9
and 50. -/
theorem classification_by_suffix_witness :
    (createDeviceFromIp "192.168.1." 254 7).devType = DeviceType.ROUTER ∧
    (createDeviceFromIp "192.168.1." 201 7).devType = DeviceType.MOBILE ∧
    (createDeviceFromIp "192.168.1." 9 7).devType = DeviceType.SERVER ∧
    (createDeviceFromIp "192.168.1." 50 7).devType = DeviceType.PC :=
  ⟨(classification_by_suffix.1 "192.168.1." 254 7).1 (by decide),
   (classification_by_suffix.1 "192.168.1." 201 7).2.1 (by decide) (by decide),
   (classification_by_suffix.1 "192.168.1." 9 7).2.2.1 (by decide) (by decide),
   (classification_by_suffix.1 "192.168.1." 50 7).2.2.2 (by decide) (by decide)
     (by decide)⟩

theorem scanBatchStep_progress (base : String) (probe : Nat → ProbeOutcome)
    (st : List NetworkDevice × List (Nat × Nat)) (i : Nat) :
    (scanBatchStep base probe st i).2 =
      st.2 ++ [(jsRound ((i + batchSize) * 100) scanIps.length,
        (scanBatchStep base probe st i).1.length)] := rfl

theorem scanBatchStep_devices (base : String) (probe : Nat → ProbeOutcome)
    (st : List NetworkDevice × List (Nat × Nat)) (i : Nat) :
    (scanBatchStep base probe st i).1 =
      st.1 ++ ((scanIps.drop i).take batchSize).filterMap (checkIp base probe) := rfl

theorem scanBatchStep_devices_le (base : String) (probe : Nat → ProbeOutcome)
    (st : List NetworkDevice × List (Nat × Nat)) (i : Nat) :
    st.1.length ≤ (scanBatchStep base probe st i).1.length := by
  rw [scanBatchStep_devices]
  simp

theorem foldl_scan_progress_length (base : String) (probe : Nat → ProbeOutcome) :
    ∀ (starts : List Nat) (st : List NetworkDevice × List (Nat × Nat)),
      ((starts.foldl (scanBatchStep base probe) st).2).length =
        st.2.length + starts.length := by
  intro starts
  induction starts with
  | nil => intro st; simp
  | cons s ss ih =>
    intro st
    rw [List.foldl_cons, ih, scanBatchStep_progress]
    simp
    omega

theorem foldl_scan_progress_map (base : String) (probe : Nat → ProbeOutcome) :
    ∀ (starts : List Nat) (st : List NetworkDevice × List (Nat × Nat)),
      ((starts.foldl (scanBatchStep base probe) st).2).map (fun p => p.1) =
        st.2.map (fun p => p.1) ++
          starts.map (fun i => jsRound ((i + batchSize) * 100) scanIps.length) := by
  intro starts
  induction starts with
  | nil => intro st; simp
  | cons s ss ih =>
    intro st
    rw [List.foldl_cons, ih, scanBatchStep_progress]
    simp

theorem foldl_scan_progress_mono (base : String) (probe : Nat → ProbeOutcome) :
    ∀ (starts : List Nat) (st : List NetworkDevice × List (Nat × Nat)),
      List.Pairwise (fun a b => a.2 ≤ b.2) st.2 →
      (∀ x ∈ st.2, x.2 ≤ st.1.length) →
      List.Pairwise (fun a b => a.2 ≤ b.2)
        ((starts.foldl (scanBatchStep base probe) st).2) := by
  intro starts
  induction starts with
  | nil =>
    intro st h1 _
    simpa using h1
  | cons s ss ih =>
    intro st h1 h2
    rw [List.foldl_cons]
    apply ih
    · rw [scanBatchStep_progress, List.pairwise_append]
      refine ⟨h1, List.pairwise_singleton _ _, ?_⟩
      intro x hx y hy
      rw [List.mem_singleton] at hy
      subst hy
      exact le_trans (h2 x hx) (scanBatchStep_devices_le base probe st s)
    · intro x hx
      rw [scanBatchStep_progress] at hx
      rcases List.mem_append.mp hx with hx1 | hx2
      · exact le_trans (h2 x hx1) (scanBatchStep_devices_le base probe st s)
      · rw [List.mem_singleton] at hx2
        subst hx2
        exact le_refl _

set_option maxRecDepth 10000 in
/-- C10: for every probe behavior over the default range (1-254, batch width
12), the progress callback is invoked exactly 22 times (once per batch); the
reported percentages are fixed — computed as round(((i + 12) / 254) * 100)
from the batch start i plus the full batch width, regardless of probe
results — the found counts are nondecreasing across invocations, and the
final reported percentage is 104, not clamped to 100. -/
theorem scan_progress_reporting (subnetBase : String)
    (probe : Nat → ProbeOutcome) :
    (scanSubnet subnetBase probe).2.length = 22 ∧
    (scanSubnet subnetBase probe).2.map (fun p => p.1) =
      (batchStarts 254 12).map (fun i => jsRound ((i + 12) * 100) 254) ∧
    ((scanSubnet subnetBase probe).2.getLast?).map (fun p => p.1) = some 104 ∧
    List.Pairwise (fun a b => a.2 ≤ b.2) (scanSubnet subnetBase probe).2 := by
  have hmap : (scanActive subnetBase probe).2.map (fun p => p.1) =
      (batchStarts 254 12).map (fun i => jsRound ((i + 12) * 100) 254) := by
    unfold scanActive
    rw [foldl_scan_progress_map]
    simp only [List.map_nil, List.nil_append]
    decide
  refine ⟨?_, hmap, ?_, ?_⟩
  · show (scanActive subnetBase probe).2.length = 22
    unfold scanActive
    rw [foldl_scan_progress_length]
    decide
  · show ((scanActive subnetBase probe).2.getLast?).map (fun p => p.1) = some 104
    have h1 : ((scanActive subnetBase probe).2.map (fun p => p.1)).getLast?
        = some 104 := by
      rw [hmap]
      decide
    rw [List.getLast?_map] at h1
    exact h1
  · show List.Pairwise (fun a b => a.2 ≤ b.2) (scanActive subnetBase probe).2
    unfold scanActive
    apply foldl_scan_progress_mono
    · exact List.Pairwise.nil
    · intro x hx
      simp at hx

theorem createDeviceFromIp_parentId (base : String) (n lat : Nat) :
    (createDeviceFromIp base n lat).parentId = none := rfl

theorem createDeviceFromIp_id (base : String) (n lat : Nat) :
    (createDeviceFromIp base n lat).id = "auto-" ++ (base ++ toString n) := rfl

theorem createDeviceFromIp_devType_ne_switch (base : String) (n lat : Nat) :
    ¬ (createDeviceFromIp base n lat).devType = DeviceType.SWITCH := by
  unfold createDeviceFromIp
  by_cases h1 : n = 1 ∨ n = 254
  · simp [h1]
  · by_cases h2 : 200 < n
    · simp [h1, h2]
    · by_cases h3 : n < 10 <;> simp [h1, h2, h3]

theorem auto_id_ne_virt (s : String) : ¬ ("auto-" ++ s = "virt-switch") := by
  intro h
  have hd := congrArg String.data h
  simp [String.data_append] at hd

theorem scanActive_mem_char (base : String) (probe : Nat → ProbeOutcome) :
    ∀ d ∈ (scanActive base probe).1, ∃ n lat, d = createDeviceFromIp base n lat := by
  have hgen : ∀ (starts : List Nat) (st : List NetworkDevice × List (Nat × Nat)),
      (∀ d ∈ st.1, ∃ n lat, d = createDeviceFromIp base n lat) →
      ∀ d ∈ (starts.foldl (scanBatchStep base probe) st).1,
        ∃ n lat, d = createDeviceFromIp base n lat := by
    intro starts
    induction starts with
    | nil =>
      intro st h d hd
      exact h d hd
    | cons s ss ih =>
      intro st h d hd
      rw [List.foldl_cons] at hd
      refine ih _ ?_ d hd
      intro x hx
      rw [scanBatchStep_devices] at hx
      rcases List.mem_append.mp hx with hx1 | hx2
      · exact h x hx1
      · obtain ⟨n, _, hcx⟩ := List.mem_filterMap.mp hx2
        unfold checkIp at hcx
        cases hpo : probe n with
        | ok lat =>
          rw [hpo] at hcx
          simp at hcx
          exact ⟨n, lat, hcx.symm⟩
        | abortTimeout =>
          rw [hpo] at hcx
          simp at hcx
        | fastError =>
          rw [hpo] at hcx
          simp at hcx
          exact ⟨n, 5, hcx.symm⟩
  intro d hd
  refine hgen _ ([], []) ?_ d hd
  intro x hx
  simp at hx

theorem scanActive_parentId_none (base : String) (probe : Nat → ProbeOutcome)
    (d : NetworkDevice) (hd : d ∈ (scanActive base probe).1) :
    d.parentId = none := by
  obtain ⟨n, lat, rfl⟩ := scanActive_mem_char base probe d hd
  exact createDeviceFromIp_parentId base n lat

theorem scanActive_devType_ne_switch (base : String) (probe : Nat → ProbeOutcome)
    (d : NetworkDevice) (hd : d ∈ (scanActive base probe).1) :
    ¬ d.devType = DeviceType.SWITCH := by
  obtain ⟨n, lat, rfl⟩ := scanActive_mem_char base probe d hd
  exact createDeviceFromIp_devType_ne_switch base n lat

theorem scanActive_id_ne_virt (base : String) (probe : Nat → ProbeOutcome)
    (d : NetworkDevice) (hd : d ∈ (scanActive base probe).1) :
    ¬ d.id = "virt-switch" := by
  obtain ⟨n, lat, rfl⟩ := scanActive_mem_char base probe d hd
  rw [createDeviceFromIp_id]
  exact auto_id_ne_virt _

theorem scanRouter_mem (devices : List NetworkDevice) (r : NetworkDevice)
    (h : scanRouter devices = some r) : r ∈ devices := by
  unfold scanRouter at h
  cases hf : devices.find? (fun d => d.devType = DeviceType.ROUTER) with
  | some q =>
    rw [hf] at h
    simp at h
    subst h
    exact List.mem_of_find?_eq_some hf
  | none =>
    rw [hf] at h
    simp at h
    cases devices with
    | nil => simp at h
    | cons x xs =>
      simp at h
      subst h
      exact List.mem_cons_self x xs

theorem virtualSwitch_id (base routerId : String) :
    (virtualSwitch base routerId).id = "virt-switch" := rfl

theorem virtualSwitch_ip (base routerId : String) :
    (virtualSwitch base routerId).ip = base ++ "2" := rfl

theorem virtualSwitch_devType (base routerId : String) :
    (virtualSwitch base routerId).devType = DeviceType.SWITCH := rfl

theorem virtualSwitch_parentId (base routerId : String) :
    (virtualSwitch base routerId).parentId = some routerId := rfl

theorem attachSwitchOne_id (r s : String) (d : NetworkDevice) :
    (attachSwitchOne r s d).id = d.id := by
  unfold attachSwitchOne
  split <;> rfl

theorem attachSwitchOne_devType (r s : String) (d : NetworkDevice) :
    (attachSwitchOne r s d).devType = d.devType := by
  unfold attachSwitchOne
  split <;> rfl

theorem attachSwitchOne_of_cond (r s : String) (d : NetworkDevice)
    (h1 : ¬ d.id = r) (h2 : ¬ d.id = s) :
    attachSwitchOne r s d = { d with parentId := some s } := by
  unfold attachSwitchOne
  rw [if_pos ⟨h1, h2⟩]

theorem attachSwitchOne_of_id_router (r s : String) (d : NetworkDevice)
    (h : d.id = r) : attachSwitchOne r s d = d := by
  unfold attachSwitchOne
  rw [if_neg]
  simp [h]

theorem attachSwitchOne_of_id_switch (r s : String) (d : NetworkDevice)
    (h : d.id = s) : attachSwitchOne r s d = d := by
  unfold attachSwitchOne
  rw [if_neg]
  simp [h]

theorem attachRouterOne_id (r : String) (d : NetworkDevice) :
    (attachRouterOne r d).id = d.id := by
  unfold attachRouterOne
  split <;> rfl

theorem attachRouterOne_of_ne (r : String) (d : NetworkDevice)
    (h : ¬ d.id = r) : attachRouterOne r d = { d with parentId := some r } := by
  unfold attachRouterOne
  rw [if_pos h]

theorem attachRouterOne_of_id (r : String) (d : NetworkDevice)
    (h : d.id = r) : attachRouterOne r d = d := by
  unfold attachRouterOne
  rw [if_neg]
  simp [h]

theorem attachToSwitch_eq (base routerId : String) (devices : List NetworkDevice)
    (hno2 : (devices.find? (fun d => d.ip = base ++ "2")).isNone = true) :
    attachToSwitch base routerId devices =
      (devices ++ [virtualSwitch base routerId]).map
        (attachSwitchOne routerId "virt-switch") := by
  unfold attachToSwitch
  simp only [virtualSwitch_ip, virtualSwitch_id]
  rw [if_pos hno2]

theorem attachToSwitch_eq_taken (base routerId : String)
    (devices : List NetworkDevice)
    (hno2 : ¬ (devices.find? (fun d => d.ip = base ++ "2")).isNone = true) :
    attachToSwitch base routerId devices =
      devices.map (attachSwitchOne routerId "virt-switch") := by
  unfold attachToSwitch
  simp only [virtualSwitch_ip, virtualSwitch_id]
  rw [if_neg hno2]

theorem postProcessTopology_of_many (base : String)
    (devices : List NetworkDevice) (R : NetworkDevice)
    (hR : scanRouter devices = some R)
    (h1 : 1 < devices.length) (h5 : 5 < devices.length) :
    postProcessTopology base devices = attachToSwitch base R.id devices := by
  unfold postProcessTopology
  rw [hR]
  simp only []
  rw [if_pos h1, if_pos h5]

theorem postProcessTopology_of_few (base : String)
    (devices : List NetworkDevice) (R : NetworkDevice)
    (hR : scanRouter devices = some R)
    (h1 : 1 < devices.length) (h5 : ¬ 5 < devices.length) :
    postProcessTopology base devices = attachToRouter R.id devices := by
  unfold postProcessTopology
  rw [hR]
  simp only []
  rw [if_pos h1, if_neg h5]

theorem postProcess_fanout (base : String) (devices : List NetworkDevice)
    (R : NetworkDevice) (hR : scanRouter devices = some R)
    (hgt1 : 1 < devices.length)
    (hpnone : ∀ d ∈ devices, d.parentId = none)
    (hnsw : ∀ d ∈ devices, ¬ d.devType = DeviceType.SWITCH)
    (hnvirt : ∀ d ∈ devices, ¬ d.id = "virt-switch") :
    (5 < devices.length →
      (devices.find? (fun d => d.ip = base ++ "2")).isNone = true →
      (((postProcessTopology base devices).filter
          (fun d => d.devType = DeviceType.SWITCH)).length = 1 ∧
       (∃ sw ∈ postProcessTopology base devices, sw.id = "virt-switch" ∧
         sw.devType = DeviceType.SWITCH ∧ sw.parentId = some R.id ∧
         sw.ip = base ++ "2") ∧
       (∀ d ∈ postProcessTopology base devices, ¬ d.id = R.id →
         ¬ d.id = "virt-switch" → d.parentId = some "virt-switch"))) ∧
    (devices.length ≤ 5 →
      ∀ d ∈ postProcessTopology base devices, ¬ d.id = R.id →
        d.parentId = some R.id) ∧
    (∀ d ∈ postProcessTopology base devices, d.id = R.id →
      d.parentId = none) := by
  refine ⟨?_, ?_, ?_⟩
  · intro h5 hno2
    rw [postProcessTopology_of_many base devices R hR hgt1 h5,
      attachToSwitch_eq base R.id devices hno2]
    refine ⟨?_, ?_, ?_⟩
    · rw [← List.countP_eq_length_filter, List.countP_map]
      have hcong : (devices ++ [virtualSwitch base R.id]).countP
          ((fun d => decide (d.devType = DeviceType.SWITCH)) ∘
            attachSwitchOne R.id "virt-switch") =
          (devices ++ [virtualSwitch base R.id]).countP
            (fun d => decide (d.devType = DeviceType.SWITCH)) := by
        apply List.countP_congr
        intro c _
        simp [Function.comp_apply, attachSwitchOne_devType]
      rw [hcong, List.countP_append]
      have h0 : devices.countP (fun d => decide (d.devType = DeviceType.SWITCH)) = 0 := by
        rw [List.countP_eq_zero]
        intro d hd
        simpa using hnsw d hd
      rw [h0]
      simp [virtualSwitch_devType]
    · refine ⟨attachSwitchOne R.id "virt-switch" (virtualSwitch base R.id), ?_, ?_⟩
      · exact List.mem_map_of_mem _ (List.mem_append_right _ (List.mem_singleton_self _))
      · rw [attachSwitchOne_of_id_switch _ _ _ (virtualSwitch_id base R.id)]
        exact ⟨virtualSwitch_id base R.id, virtualSwitch_devType base R.id,
          virtualSwitch_parentId base R.id, virtualSwitch_ip base R.id⟩
    · intro d hd hid1 hid2
      obtain ⟨c, hc, rfl⟩ := List.mem_map.mp hd
      rw [attachSwitchOne_id] at hid1 hid2
      rw [attachSwitchOne_of_cond _ _ _ hid1 hid2]
  · intro h5le d hd hid
    have h5 : ¬ 5 < devices.length := by omega
    rw [postProcessTopology_of_few base devices R hR hgt1 h5] at hd
    unfold attachToRouter at hd
    obtain ⟨c, hc, rfl⟩ := List.mem_map.mp hd
    rw [attachRouterOne_id] at hid
    rw [attachRouterOne_of_ne _ _ hid]
  · intro d hd hid
    have hRmem := scanRouter_mem devices R hR
    by_cases h5 : 5 < devices.length
    · by_cases hno2 : (devices.find? (fun d => d.ip = base ++ "2")).isNone = true
      · rw [postProcessTopology_of_many base devices R hR hgt1 h5,
          attachToSwitch_eq base R.id devices hno2] at hd
        obtain ⟨c, hc, rfl⟩ := List.mem_map.mp hd
        rw [attachSwitchOne_id] at hid
        rw [attachSwitchOne_of_id_router _ _ _ hid]
        rcases List.mem_append.mp hc with h1 | h2
        · exact hpnone c h1
        · rw [List.mem_singleton] at h2
          subst h2
          exact absurd hid.symm (hnvirt R hRmem)
      · rw [postProcessTopology_of_many base devices R hR hgt1 h5,
          attachToSwitch_eq_taken base R.id devices hno2] at hd
        obtain ⟨c, hc, rfl⟩ := List.mem_map.mp hd
        rw [attachSwitchOne_id] at hid
        rw [attachSwitchOne_of_id_router _ _ _ hid]
        exact hpnone c hc
    · rw [postProcessTopology_of_few base devices R hR hgt1 h5] at hd
      unfold attachToRouter at hd
      obtain ⟨c, hc, rfl⟩ := List.mem_map.mp hd
      rw [attachRouterOne_id] at hid
      rw [attachRouterOne_of_id _ _ hid]
      exact hpnone c hc

/-- Probe behavior with exactly 6 responding hosts, none at the reserved
address `.2`. -/
def probeSix : Nat → ProbeOutcome := fun n =>
  if n = 1 ∨ n = 20 ∨ n = 30 ∨ n = 40 ∨ n = 50 ∨ n = 60 then ProbeOutcome.ok 10
  else ProbeOutcome.abortTimeout

set_option maxRecDepth 10000 in
/-- C7 counterexample: with exactly 6 present hosts — a count that does not
exceed 6 — the claim requires every non-root device to be parented directly to
the root, but the code's fan-out test is `activeDevices.length > 5`, so it
synthesizes the virtual switch and parents the host at .20 to "virt-switch"
instead of to the router's id. -/
theorem scan_fanout_threshold_counterexample :
    (scanActive "192.168.1." probeSix).1.length = 6 ∧
    ∃ d ∈ (scanSubnet "192.168.1." probeSix).1,
      ¬ d.id = "auto-192.168.1.1" ∧ ¬ d.parentId = some "auto-192.168.1.1" := by
  decide

set_option maxRecDepth 10000 in
/-- C7 (amended): for every completed scan with root R (the first Router
found, else the first device) and more than one present device: if the
present-host count exceeds 5 (the code tests `length > 5`, not `> 6`) and no
present host occupies the reserved address `<base>2`, the result contains
exactly one Switch-kind device — the synthesized "virt-switch", parented to R
at the reserved address — and every other non-root device is parented to that
switch; if the count is at most 5, every device other than R is parented
directly to R; in all cases R itself keeps `parentId = none`. -/
theorem scan_fanout_topology (base : String) (probe : Nat → ProbeOutcome)
    (R : NetworkDevice)
    (hR : scanRouter (scanActive base probe).1 = some R)
    (hgt1 : 1 < (scanActive base probe).1.length) :
    (5 < (scanActive base probe).1.length →
      ((scanActive base probe).1.find? (fun d => d.ip = base ++ "2")).isNone = true →
      (((scanSubnet base probe).1.filter
          (fun d => d.devType = DeviceType.SWITCH)).length = 1 ∧
       (∃ sw ∈ (scanSubnet base probe).1, sw.id = "virt-switch" ∧
         sw.devType = DeviceType.SWITCH ∧ sw.parentId = some R.id ∧
         sw.ip = base ++ "2") ∧
       (∀ d ∈ (scanSubnet base probe).1, ¬ d.id = R.id →
         ¬ d.id = "virt-switch" → d.parentId = some "virt-switch"))) ∧
    ((scanActive base probe).1.length ≤ 5 →
      ∀ d ∈ (scanSubnet base probe).1, ¬ d.id = R.id →
        d.parentId = some R.id) ∧
    (∀ d ∈ (scanSubnet base probe).1, d.id = R.id → d.parentId = none) := by
  have hfst : (scanSubnet base probe).1 =
      postProcessTopology base (scanActive base probe).1 := by
    simp only [scanSubnet]
  rw [hfst]
  exact postProcess_fanout base (scanActive base probe).1 R hR hgt1
    (scanActive_parentId_none base probe)
    (scanActive_devType_ne_switch base probe)
    (scanActive_id_ne_virt base probe)

/-- Probe behavior with 10 responding hosts (the spec's fan-out test vector),
none at the reserved address `.2`. -/
def probeTen : Nat → ProbeOutcome := fun n =>
  if n = 1 ∨ (20 ≤ n ∧ n ≤ 28) then ProbeOutcome.ok 10
  else ProbeOutcome.abortTimeout

set_option maxRecDepth 10000 in
/-- Witness for the fan-out theorem: with 10 responding hosts the scan result
contains exactly one synthesized Switch parented to the router found at
address 1, and every other non-root device is parented to it. -/
theorem scan_fanout_topology_witness :
    ((scanSubnet "192.168.1." probeTen).1.filter
        (fun d => d.devType = DeviceType.SWITCH)).length = 1 ∧
    (∃ sw ∈ (scanSubnet "192.168.1." probeTen).1, sw.id = "virt-switch" ∧
      sw.devType = DeviceType.SWITCH ∧
      sw.parentId = some (createDeviceFromIp "192.168.1." 1 10).id ∧
      sw.ip = "192.168.1." ++ "2") ∧
    (∀ d ∈ (scanSubnet "192.168.1." probeTen).1,
      ¬ d.id = (createDeviceFromIp "192.168.1." 1 10).id →
      ¬ d.id = "virt-switch" → d.parentId = some "virt-switch") :=
  (scan_fanout_topology "192.168.1." probeTen
    (createDeviceFromIp "192.168.1." 1 10) (by decide) (by decide)).1
    (by decide) (by decide)
